import Mathlib

/-!
Shallow embedding of the PID-agent repository's core:
the serial protocol adapter (`fastapi_app/utils/serial_comm.py`),
the mock PID channel model (`tests/mock_pid_system.py`),
the telemetry analyzers (`core/utils/data_logger.py`, `core/utils/data_store.py`)
and the optimization orchestrator (`core/utils/pid_optimizer.py`).
Python floats are modelled as rationals (`ℚ`); machine time is an explicit
parameter; random noise and disturbances are explicit inputs.
-/

/-- A parsed JSON value, as produced by Python's `json.loads`:
objects are association lists of string keys, numbers are rationals. -/
inductive JVal where
  | null : JVal
  | bool : Bool → JVal
  | num  : ℚ → JVal
  | str  : String → JVal
  | arr  : List JVal → JVal
  | obj  : List (String × JVal) → JVal

namespace JVal

/-- Python truthiness (`if data:`) of a parsed JSON value: `None`, `False`,
`0`, `""`, `[]` and `` {} `` are falsy, everything else truthy. -/
def pyTruthy : JVal → Bool
  | .null   => false
  | .bool b => b
  | .num q  => q ≠ 0
  | .str s  => s ≠ ""
  | .arr l  => ¬ l.isEmpty
  | .obj l  => ¬ l.isEmpty

/-- Embeds `d.get key` on a JSON object: first binding of `key`, if any. -/
def lookup (key : String) : JVal → Option JVal
  | .obj l => l.lookup key
  | _      => none

end JVal

namespace SerialComm

/-- The `SerialManager` state that `get_status` touches: whether a connection
is open (`is_connected()`) and the last snapshot kept in `self.last_data`. -/
structure SMState where
  connected : Bool
  last_data : Option JVal

/-- What one `readline()` call produced, after Python-side decoding:
`none` — the empty line `b''` (falsy, skips the parse block);
`some none` — a non-empty line on which `json.loads` raises `JSONDecodeError`;
`some (some v)` — a non-empty line parsing to the JSON value `v`. -/
def ReadResult := Option (Option JVal)

/-- Embeds `SerialManager.get_status` (serial_comm.py lines 293-350).
Raises (`Except.error`) when not connected.  If the line parses to a truthy
value it is stored in `last_data` and returned — there is no check of the
`channels` key.  On an empty line, a parse error, or a falsy parse, the
previous `last_data` is returned if present; otherwise an empty snapshot
`{timestamp: now, channels: []}` is created, stored and returned. -/
def get_status (s : SMState) (line : ReadResult) (nowStr : String) :
    Except String (JVal × SMState) :=
  if ¬ s.connected then
    .error "Device not connected"
  else
    let fallback : Except String (JVal × SMState) :=
      match s.last_data with
      | some d => .ok (d, s)
      | none =>
          let e : JVal := .obj [("timestamp", .str nowStr), ("channels", .arr [])]
          .ok (e, { s with last_data := some e })
    match line with
    | some (some data) =>
        if data.pyTruthy then .ok (data, { s with last_data := some data })
        else fallback
    | some none => fallback
    | none => fallback

/-- Python's `str.split(sep)` for a one-character separator, on the
character list of the string: `"a:b:c".split(':') = ["a","b","c"]`,
`"".split(':') = [""]`, `":".split(':') = ["", ""]`. -/
def splitOnChar (sep : Char) : List Char → List (List Char)
  | [] => [[]]
  | c :: rest =>
      let r := splitOnChar sep rest
      if c = sep then [] :: r
      else
        match r with
        | h :: t => (c :: h) :: t
        | [] => [[c]]

/-- Value of a non-empty string of decimal digits. -/
def natOfDigits (s : List Char) : Nat :=
  s.foldl (fun n c => 10 * n + (c.toNat - 48)) 0

/-- Python's `int(s)` on the strings this protocol produces: an optional
sign followed by decimal digits; anything else raises `ValueError` (`none`).
(Whitespace, underscores and other bases never occur in the wire format.) -/
def pyParseInt (s : List Char) : Option Int :=
  let core (t : List Char) : Option Nat :=
    if t ≠ [] ∧ t.all Char.isDigit then some (natOfDigits t) else none
  match s with
  | '-' :: rest => (core rest).map (fun n => -(n : Int))
  | '+' :: rest => (core rest).map (fun n => (n : Int))
  | _ => (core s).map (fun n => (n : Int))

/-- Python's `float(s)` on plain decimal notation: optional sign, digits,
optional point and fraction digits (at least one digit overall).  Exponent,
`inf`/`nan` forms never occur on this wire and are not modelled. -/
def pyParseFloat (s : List Char) : Option ℚ :=
  let parse (t : List Char) : Option ℚ :=
    match splitOnChar '.' t with
    | [ip] =>
        if ip ≠ [] ∧ ip.all Char.isDigit then some ((natOfDigits ip : ℚ))
        else none
    | [ip, fp] =>
        if (ip ≠ [] ∨ fp ≠ []) ∧ ip.all Char.isDigit ∧ fp.all Char.isDigit
        then some ((natOfDigits ip : ℚ) + (natOfDigits fp : ℚ) / (10 : ℚ) ^ fp.length)
        else none
    | _ => none
  match s with
  | '-' :: rest => (parse rest).map (fun q => -q)
  | '+' :: rest => parse rest
  | _ => parse s

/-- One channel of `MockSerial.channels` (serial_comm.py lines 42-51):
note the mock's default `max_duty` is 80. -/
structure SChan where
  temperature : ℚ
  target_temp : ℚ
  kp : ℚ
  ki : ℚ
  kd : ℚ
  control_period : Int
  max_duty : Int
  heating : Bool
  deriving DecidableEq, Repr

/-- The channel dict entry created by `MockSerial.__init__`/`write`/`reset`. -/
def defaultSChan : SChan :=
  { temperature := 25, target_temp := 25, kp := 1, ki := 1/10, kd := 1/20
    control_period := 100, max_duty := 80, heating := false }

/-- Embeds `MockSerial.channels`: a Python dict from int channel id to channel state,
as an association list in insertion order. -/
abbrev MChannels := List (Int × SChan)

/-- Dict assignment `channels[cid] = c`: replace the binding if the key is
present, otherwise append it (Python dicts keep insertion order). -/
def setKey (chs : MChannels) (cid : Int) (c : SChan) : MChannels :=
  if (chs.lookup cid).isSome then
    chs.map (fun p => if p.1 = cid then (cid, c) else p)
  else chs ++ [(cid, c)]

/-- Dict update of one existing channel through a field transformer. -/
def updKey (chs : MChannels) (cid : Int) (f : SChan → SChan) : MChannels :=
  chs.map (fun p => if p.1 = cid then (cid, f p.2) else p)

/-- The channel dicts created by `MockSerial.__init__(num_channels)`. -/
def initMChannels (num_channels : Nat) : MChannels :=
  (List.range num_channels).map (fun i => ((i : Int), defaultSChan))

/-- Embeds `MockSerial.write` (serial_comm.py lines 135-236), state effect on
`self.channels`; `cmd` is the wire text already stripped of its newline
(`data.decode().strip()`).  Every raised `ValueError`/`IndexError` is caught
and leaves the remaining state as it stood, so the int return value (always
`len(data)`) is not modelled.  Note the missing channel id is created with
defaults *before* the command type is dispatched, and that an unparsable
channel field (`int(parts[1])` failing) aborts before that creation.
The command is taken as its character list (`cmd.data`). -/
def mockWrite (chs : MChannels) (cmd : List Char) : MChannels :=
  match splitOnChar ':' cmd with
  | cmdType :: chStr :: rest =>
      match pyParseInt chStr with
      | none => chs
      | some cid =>
          let chs1 := if (chs.lookup cid).isNone then chs ++ [(cid, defaultSChan)] else chs
          if cmdType = "HEAT".data then
            match rest with
            | [] => chs1
            | hs :: _ =>
                match pyParseInt hs with
                | none => chs1
                | some k =>
                    let heating := k ≠ 0
                    updKey chs1 cid (fun c =>
                      let c1 := { c with heating := heating }
                      if heating then { c1 with temperature := c1.temperature + 1/10 }
                      else if c1.temperature > 25 then
                        { c1 with temperature := c1.temperature - 1/20 }
                      else c1)
          else if cmdType = "PID".data then
            match rest with
            | [] => chs1
            | ps :: _ =>
                match splitOnChar ',' ps with
                | p0 :: p1 :: p2 :: p3 :: p4 :: p5 :: _ =>
                    match pyParseFloat p0, pyParseFloat p1, pyParseFloat p2,
                          pyParseFloat p3, pyParseInt p4, pyParseInt p5 with
                    | some kp, some ki, some kd, some tt, some cp, some md =>
                        updKey chs1 cid (fun c =>
                          { c with kp := kp, ki := ki, kd := kd, target_temp := tt,
                                   control_period := cp, max_duty := md })
                    | _, _, _, _, _, _ => chs1
                | _ => chs1
          else chs1
  | _ => chs

/-- Embeds `MockSerial.reset()` with no channel argument (serial_comm.py lines
242-258): reassigns every id in `range(num_channels)` to the default dict. -/
def mockReset (num_channels : Nat) (chs : MChannels) : MChannels :=
  (List.range num_channels).foldl (fun a i => setKey a (i : Int) defaultSChan) chs

/-- Embeds `SerialManager.set_pid_params` (serial_comm.py lines 488-506).
The float parameters are passed as their Python `str()` renderings, since
only the command's delimiter layout is at issue; `none` models the
`return False` on an out-of-range channel, `some cmd` the text handed to
`send_command` (which appends the newline that `MockSerial.write` strips). -/
def set_pid_params (num_channels : Nat) (channel : Int)
    (kp ki kd target_temp : String) (control_period max_duty : Int) :
    Option String :=
  if 0 ≤ channel ∧ channel < num_channels then
    let cp := max 10 (min 1000 control_period)
    let md := max 0 (min 100 max_duty)
    some ("PID:" ++ toString channel ++ "," ++ kp ++ "," ++ ki ++ "," ++ kd ++
          "," ++ target_temp ++ "," ++ toString cp ++ "," ++ toString md)
  else none

/-- The set-gains wire format stated by the spec (§4.4): a colon between the
channel id and the comma-separated parameter list.  Stated from the spec's
words, for comparison with `set_pid_params`; it is also the format built by
`device_router.py` line 253 and parsed by `MockSerial.write`. -/
def specSetGainsWire (channel : Int) (kp ki kd target_temp : String)
    (control_period max_duty : Int) : String :=
  "PID:" ++ toString channel ++ ":" ++ kp ++ "," ++ ki ++ "," ++ kd ++ "," ++
    target_temp ++ "," ++ toString control_period ++ "," ++ toString max_duty

end SerialComm

namespace MockPID

/-- In-place indexed update `xs[i] = f(xs[i])` of a list, structurally
recursive (out-of-range indices leave the list unchanged; all uses below are
range-guarded as in the source). -/
def modifyIdx {α : Type} (l : List α) (i : Nat) (f : α → α) : List α :=
  match l, i with
  | [], _ => []
  | a :: t, 0 => f a :: t
  | a :: t, n + 1 => a :: modifyIdx t n f


/-- One channel of `MockPIDSystem.channels` (mock_pid_system.py lines 13-26).
Timestamps (`time.time()` values) are rationals in seconds. -/
structure Chan where
  current_temp : ℚ
  target_temp : ℚ
  kp : ℚ
  ki : ℚ
  kd : ℚ
  control_period : Int
  max_duty : Int
  heating : Bool
  last_error : ℚ
  integral : ℚ
  last_time : ℚ
  last_control_time : ℚ
  deriving DecidableEq, Repr

/-- The channel dict built at `__init__`, with `t0` the `time.time()` then. -/
def initChan (t0 : ℚ) : Chan :=
  { current_temp := 25, target_temp := 25, kp := 1, ki := 1/10, kd := 1/20
    control_period := 100, max_duty := 100, heating := false
    last_error := 0, integral := 0, last_time := t0, last_control_time := t0 }

/-- Embeds `self.disturbance`: normally the dict `{i: float}`, modelled by the list
of per-channel values; `MockPIDSystem.set_heating` overwrites the whole
attribute with the scalar `0.0` (mock_pid_system.py line 173), after which
any indexed access raises `TypeError`. -/
inductive Dist where
  | map : List ℚ → Dist
  | scalar : ℚ → Dist
  deriving DecidableEq, Repr

/-- Indexed read `self.disturbance[channel]`; `none` models the `TypeError`
raised when the dict has been replaced by the scalar. -/
def Dist.get : Dist → Nat → Option ℚ
  | .map l, i => some (l.getD i 0)
  | .scalar _, _ => none

/-- Indexed write `self.disturbance[channel] = v`, same failure mode. -/
def Dist.set : Dist → Nat → ℚ → Option Dist
  | .map l, i, v => some (.map (l.set i v))
  | .scalar _, _, _ => none

/-- Embeds `MockPIDSystem` state: `channels` is indexed by channel id (the dict has
exactly the keys `0 .. num_channels-1`).  The class constants are fixed:
`time_constant = 5.0`, `sample_time = 0.1`, `max_power = 100.0`. -/
structure Sys where
  num_channels : Nat
  channels : List Chan
  disturbance : Dist
  deriving DecidableEq, Repr

/-- Embeds `MockPIDSystem(num_channels)` at init time `t0`. -/
def initSys (num_channels : Nat) (t0 : ℚ) : Sys :=
  { num_channels := num_channels
    channels := List.replicate num_channels (initChan t0)
    disturbance := .map (List.replicate num_channels 0) }

/-- Embeds `MockPIDSystem.update_params` (mock_pid_system.py lines 37-52): on an
in-range id, clamps `control_period` to `[10,1000]` and `max_duty` to
`[0,100]` (`np.clip`) and updates the channel; on an out-of-range id it
returns with no effect and no error. -/
def update_params (s : Sys) (channel : Int) (kp ki kd target : ℚ)
    (control_period max_duty : Int) : Sys :=
  if 0 ≤ channel ∧ channel < s.num_channels then
    let cp := min 1000 (max 10 control_period)
    let md := min 100 (max 0 max_duty)
    { s with channels := modifyIdx s.channels channel.toNat (fun c =>
        { c with kp := kp, ki := ki, kd := kd, target_temp := target,
                 control_period := cp, max_duty := md }) }
  else s

/-- Embeds `MockPIDSystem.set_heating` (mock_pid_system.py lines 169-173): sets the
flag only on an in-range id, but *unconditionally* replaces the disturbance
dict with the scalar `0.0`. -/
def set_heating (s : Sys) (channel : Int) (heating : Bool) : Sys :=
  let s1 :=
    if 0 ≤ channel ∧ channel < s.num_channels then
      { s with channels := modifyIdx s.channels channel.toNat (fun c => { c with heating := heating }) }
    else s
  { s1 with disturbance := .scalar 0 }

/-- The per-channel field reset done by `MockPIDSystem.reset`. -/
def resetChan (c : Chan) : Chan :=
  { c with current_temp := 25, integral := 0, last_error := 0, heating := false }

/-- Embeds `MockPIDSystem.reset` (mock_pid_system.py lines 145-167): with an
in-range id resets that channel's `current_temp`/`integral`/`last_error`/
`heating` and zeroes its disturbance entry; with `None` *or any out-of-range
id* it does the same for every channel.  Gains, target, period, duty and the
timestamps are left untouched.  `none` models the `TypeError` raised when the
disturbance store was clobbered by `set_heating`. -/
def reset (s : Sys) (channel : Option Int) : Option Sys :=
  match channel with
  | some c =>
      if 0 ≤ c ∧ c < s.num_channels then
        (s.disturbance.set c.toNat 0).map (fun d =>
          { s with channels := modifyIdx s.channels c.toNat resetChan
                   disturbance := d })
      else
        (resetAll s)
  | none => resetAll s
where
  /-- The `else` arm: reset every channel and zero every disturbance entry. -/
  resetAll (s : Sys) : Option Sys :=
    (List.range s.num_channels).foldlM (fun a i =>
      (a.disturbance.set i 0).map (fun d =>
        { a with channels := modifyIdx a.channels i resetChan, disturbance := d })) s

/-- Embeds `MockPIDSystem._calculate_next_temp` (mock_pid_system.py lines 54-111).
`now` is `time.time()` at the call, `noise` the `np.random.normal` draw.
Returns the updated system together with the returned temperature (the
function does *not* assign `current_temp`; its caller does).  Key structure,
kept exactly as in the source: once `heating` and `dt ≥ sample_time`, the
integral is accumulated *before* the control-period gate, so a hold step
(`now − last_control_time < control_period/1000`) already mutated the
integral, while `last_error` and `last_time` are only written on a full
control tick.  `none` models the `TypeError` on a scalar disturbance store
(not reachable before any `set_heating`); the partial in-place writes
preceding such a raise are not tracked. -/
def calcNextTemp (s : Sys) (channel : Int) (now : ℚ) (noise : ℚ) :
    Option (Sys × ℚ) :=
  if ¬ (0 ≤ channel ∧ channel < s.num_channels) then
    some (s, 25)
  else
    let i := channel.toNat
    let ch := s.channels.getD i (initChan 0)
    let dt := now - ch.last_time
    if dt < 1/10 then
      some (s, ch.current_temp)
    else if ¬ ch.heating then
      let temp_change := -(1/10) * (ch.current_temp - 25) * (dt / 5)
      let new_temp := ch.current_temp + temp_change
      some ({ s with channels := modifyIdx s.channels i (fun c => { c with last_time := now }) }, new_temp)
    else
      let error := ch.target_temp - ch.current_temp
      let integral := ch.integral + error * dt
      let p_term := ch.kp * error
      let i_term := ch.ki * integral
      let d_term := if dt > 0 then ch.kd * (error - ch.last_error) / dt else 0
      if now - ch.last_control_time < (ch.control_period : ℚ) / 1000 then
        some ({ s with channels := modifyIdx s.channels i (fun c => { c with integral := integral }) }, ch.current_temp)
      else
        let output := p_term + i_term + d_term
        let max_output := 100 * ((ch.max_duty : ℚ) / 100)
        let output := min max_output (max 0 output)
        (s.disturbance.get i).map (fun dist =>
          let temp_change := (output / 100 * (ch.target_temp - ch.current_temp)
                              + dist) * (dt / 5)
          let new_temp := ch.current_temp + temp_change + noise
          ({ s with channels := modifyIdx s.channels i (fun c =>
              { c with integral := integral, last_control_time := now,
                       last_error := error, last_time := now }) }, new_temp))

/-- Round-half-even to an integer (Python's `round` at exact halves; on the
non-half rationals arising here it agrees with ordinary rounding). -/
def roundHalfEvenInt (q : ℚ) : ℤ :=
  if q - ⌊q⌋ = 1/2 then (if Even ⌊q⌋ then ⌊q⌋ else ⌊q⌋ + 1) else round q

/-- Python's `round(x, 2)`. -/
def pyRound2 (q : ℚ) : ℚ := (roundHalfEvenInt (q * 100) : ℚ) / 100

/-- One channel's entry in the JSON built by
`MockPIDSystem.get_current_state` (mock_pid_system.py lines 120-132). -/
structure ChanStatus where
  id : Nat
  temperature : ℚ
  kp : ℚ
  ki : ℚ
  kd : ℚ
  target_temp : ℚ
  control_period : Int
  max_duty : Int
  heating : Bool
  deriving DecidableEq, Repr

/-- Embeds `MockPIDSystem.get_current_state` (mock_pid_system.py lines 113-138):
for each channel in order, assigns `current_temp := _calculate_next_temp(i)`
and reports the channel with the temperature rounded to 2 decimals.  `now`
is the common call time, `noise i` the noise draw for channel `i`. -/
def get_current_state (s : Sys) (now : ℚ) (noise : Nat → ℚ) :
    Option (Sys × List ChanStatus) :=
  (List.range s.num_channels).foldlM (fun (a : Sys × List ChanStatus) (i : Nat) => do
    let (s', t) ← calcNextTemp a.1 (Int.ofNat i) now (noise i)
    let s'' := { s' with channels := modifyIdx s'.channels i (fun c => { c with current_temp := t }) }
    let ch := s''.channels.getD i (initChan 0)
    pure (s'', a.2 ++ [{ id := i, temperature := pyRound2 ch.current_temp,
                         kp := ch.kp, ki := ch.ki, kd := ch.kd,
                         target_temp := ch.target_temp,
                         control_period := ch.control_period,
                         max_duty := ch.max_duty, heating := ch.heating }]))
    (s, [])

end MockPID

namespace CoreLogger

/-- One record of `DataLogger.data[channel]` (data_logger.py lines 27-35),
after the `pd.to_datetime` indexing of `get_channel_data`: the timestamp is
in seconds (pandas timestamp differences are reported in seconds). -/
structure Row where
  timestamp : ℚ
  temperature : ℚ
  target_temp : ℚ
  kp : ℚ
  ki : ℚ
  kd : ℚ
  heating : Bool
  deriving DecidableEq, Repr

/-- Embeds `temp_data.max()` over a non-empty series ( `0` on the empty one, which
pandas would report as NaN — all uses below guard non-emptiness). -/
def tempMax : List Row → ℚ
  | [] => 0
  | r :: rs => (rs.map Row.temperature).foldl max r.temperature

/-- The `overshoot` entry of `DataLogger.get_channel_metrics`
(data_logger.py lines 106-108), on the window `rows` (the already
time-filtered dataframe): `((max_temp - target)/target) * 100` whenever
`target ≠ 0` — with no floor at zero — and `None` when `target == 0`;
`target` is the last row's `target_temp`.  `none` also covers the empty
dataframe, for which the function returns the all-`None` dict. -/
def metricsOvershoot (rows : List Row) : Option ℚ :=
  match rows.getLast? with
  | none => none
  | some lastRow =>
      let target := lastRow.target_temp
      if target ≠ 0 then some (((tempMax rows - target) / target) * 100)
      else none

/-- The mask `(temp_data >= target - tolerance) & (temp_data <= target +
tolerance)` (data_logger.py line 112), one row at a time. -/
def inBand (target tolerance : ℚ) (r : Row) : Bool :=
  decide (target - tolerance ≤ r.temperature ∧ r.temperature ≤ target + tolerance)

/-- The `settling_time` entry of `DataLogger.get_channel_metrics`
(data_logger.py lines 110-116): elapsed seconds from the window's first row
to the *first* row whose temperature lies within `±2%` of the last row's
target — regardless of whether later rows stay in the band; `None` when no
row is in the band (the `IndexError` branch) or the window is empty. -/
def metricsSettling (rows : List Row) : Option ℚ :=
  match rows, rows.getLast? with
  | r0 :: _, some lastRow =>
      let target := lastRow.target_temp
      let tolerance := (2/100) * target
      match rows.find? (inBand target tolerance) with
      | some r => some (r.timestamp - r0.timestamp)
      | none => none
  | _, _ => none

/-- The `DataLogger` store (data_logger.py line 15): `data[i]` is channel
`i`'s record list, for `0 ≤ i < num_channels`. -/
structure LoggerState where
  num_channels : Nat
  data : List (List Row)
  deriving DecidableEq, Repr

/-- Embeds `DataLogger(num_channels)`. -/
def initLogger (num_channels : Nat) : LoggerState :=
  { num_channels := num_channels, data := List.replicate num_channels [] }

/-- Embeds `DataLogger.clear_channel_data` (data_logger.py lines 242-257): on an
in-range id empties that channel's list and returns `True`; on an
out-of-range id returns `False` with no state change and no exception. -/
def clear_channel_data (s : LoggerState) (channel : Int) :
    Bool × LoggerState :=
  if 0 ≤ channel ∧ channel < s.num_channels then
    (true, { s with data := s.data.set channel.toNat [] })
  else
    (false, s)

/-- Embeds `DataLogger.clear_all_data` (data_logger.py lines 259-262). -/
def clear_all_data (s : LoggerState) : LoggerState :=
  { s with data := List.replicate s.num_channels [] }

end CoreLogger

namespace DataStore

/-- Embeds `max(temperatures)` of a non-empty list (`0` on the empty one, where
Python's `max` would raise — all uses guard non-emptiness). -/
def maxTemps : List ℚ → ℚ
  | [] => 0
  | t :: ts => ts.foldl max t

/-- The `overshoot` entry of `DataLogger.analyze_curve` in
`core/utils/data_store.py` (lines 69-71), over the session's temperature
list: `((max - target)/target) * 100` when `max > target`, else exactly `0`.
`none` models both the all-`None` dict on empty data and the uncaught
`ZeroDivisionError` when `max > target = 0`. -/
def analyzeOvershoot (target : ℚ) (temps : List ℚ) : Option ℚ :=
  match temps with
  | [] => none
  | t :: ts =>
      let maxT := maxTemps (t :: ts)
      if maxT > target then
        if target = 0 then none
        else some (((maxT - target) / target) * 100)
      else some 0

/-- The `settling_time` loop of `analyze_curve` (data_store.py lines 77-90):
each in-band sample records its index; the loop stops early at the first
sample from which the whole remaining suffix stays in band, otherwise it
runs to the end with the *last* in-band index recorded.  `acc` is the
`settling_time` variable, `i` the running index. -/
def settleLoop (target band : ℚ) : List ℚ → Nat → Option Nat → Option Nat
  | [], _, acc => acc
  | t :: rest, i, acc =>
      if |t - target| ≤ band then
        if (t :: rest).all (fun x => decide (|x - target| ≤ band)) then some i
        else settleLoop target band rest (i + 1) (some i)
      else settleLoop target band rest (i + 1) acc

/-- The `settling_time` entry of `analyze_curve` (data_store.py lines
77-90): the band is `±5%` of target and the result is a sample *index*;
`none` when the data is empty or no sample is ever in the band. -/
def analyzeSettling (target : ℚ) (temps : List ℚ) : Option Nat :=
  match temps with
  | [] => none
  | _ => settleLoop target (target * (5/100)) temps 0 none

end DataStore

namespace Optimizer

/-- Embeds `np.clip(x, lo, hi)`. -/
def npClip (x lo hi : ℚ) : ℚ := min hi (max lo x)

/-- Python's `isinstance(v, (int, float))` test with the subsequent
`float(v)` conversion, on a JSON-decoded value: JSON numbers pass, and —
because `bool` is a subclass of `int` in Python — so do `true`/`false`
(as `1`/`0`).  Everything else fails the validation. -/
def pyNumeric : JVal → Option ℚ
  | .num q  => some q
  | .bool b => some (if b then 1 else 0)
  | _       => none

/-- The value returned by `PIDOptimizer.optimize_params`, projected to the
fields the contract is about (the source returns the whole response dict
with `kp`/`ki`/`kd` clamped in place). -/
structure OptResult where
  kp : ℚ
  ki : ℚ
  kd : ℚ
  explanation : String
  deriving DecidableEq, Repr

/-- The validation block of `PIDOptimizer.optimize_params` (pid_optimizer.py
lines 103-117): the decoded response must be an object carrying all of
`kp`, `ki`, `kd`, `explanation`, the gains numeric (`isinstance(v,
(int,float))`, so JSON booleans slip through) and the explanation a string;
`none` — some check raised, to be caught by the enclosing `except`. -/
def validateResponse (v : JVal) : Option (ℚ × ℚ × ℚ × String) :=
  match v.lookup "kp", v.lookup "ki", v.lookup "kd", v.lookup "explanation" with
  | some kpv, some kiv, some kdv, some ev =>
      match pyNumeric kpv, pyNumeric kiv, pyNumeric kdv, ev with
      | some kp, some ki, some kd, .str e => some (kp, ki, kd, e)
      | _, _, _, _ => none
  | _, _, _, _ => none

/-- Embeds `PIDOptimizer.optimize_params` (pid_optimizer.py lines 43-131),
with the I/O factored out: `df` is the window returned by
`data_logger.get_channel_data(channel, hours)` and `resp` the advisor's
reply content after `json.loads` (`none` — the parse raised).  On an empty
window it returns the built-in defaults with the no-data explanation before
the advisor is ever consulted (so the result is the same for every `resp`).
Otherwise the response must be an object with numeric `kp`/`ki`/`kd` and a
string `explanation`; any missing field, wrong type, or unparsable reply
falls back to the last row's gains with the fixed failure explanation.
Accepted gains are clamped to `kp ∈ [0.1,100]`, `ki,kd ∈ [0,10]`. -/
def optimize_params (df : List CoreLogger.Row) (resp : Option JVal) :
    OptResult :=
  match df.getLast? with
  | none =>
      { kp := 1, ki := 1/10, kd := 1/20, explanation := "没有足够的数据进行优化" }
  | some lastRow =>
      let fallback : OptResult :=
        { kp := lastRow.kp, ki := lastRow.ki, kd := lastRow.kd
          explanation := "参数优化失败，保持当前参数不变" }
      match resp with
      | none => fallback
      | some v =>
          match validateResponse v with
          | some (kp, ki, kd, e) =>
              { kp := npClip kp (1/10) 100, ki := npClip ki 0 10
                kd := npClip kd 0 10, explanation := e }
          | none => fallback

/-- The effect of one `optimize_params` call on the channel model:
the function receives only the channel id and the data logger
(pid_optimizer.py line 43) and holds no reference to the `MockPIDSystem`,
so the system state passes through unchanged alongside the result. -/
def optimizeWithSystem (sys : MockPID.Sys) (df : List CoreLogger.Row)
    (resp : Option JVal) : OptResult × MockPID.Sys :=
  (optimize_params df resp, sys)

end Optimizer

/-! ## Helper lemmas shared by the claim theorems -/

/-- Membership in the settling tolerance band, as a proposition. -/
theorem inBand_iff (target tolerance : ℚ) (r : CoreLogger.Row) :
    CoreLogger.inBand target tolerance r = true ↔
      (target - tolerance ≤ r.temperature ∧ r.temperature ≤ target + tolerance) := by
  simp [CoreLogger.inBand]

/-- Shape of `metricsSettling` on a non-empty window: the first in-band row's
offset from the window start, if any. -/
theorem metricsSettling_eq (rows : List CoreLogger.Row) (r0 lastRow : CoreLogger.Row)
    (hhead : rows.head? = some r0) (hlast : rows.getLast? = some lastRow) :
    CoreLogger.metricsSettling rows
      = (rows.find? (CoreLogger.inBand lastRow.target_temp ((2/100) * lastRow.target_temp))).map
          (fun r => r.timestamp - r0.timestamp) := by
  cases rows with
  | nil => simp at hhead
  | cons a tail =>
      have ha : a = r0 := by simpa using hhead
      subst ha
      simp only [CoreLogger.metricsSettling]
      rw [hlast]
      cases h : (a :: tail).find?
          (CoreLogger.inBand lastRow.target_temp ((2/100) * lastRow.target_temp)) with
      | none => simp [h]
      | some r => simp [h]

/-- Invariant of the `analyze_curve` settling loop: it returns `none` exactly
when the accumulator is `none` and no remaining sample is in the band. -/
theorem settleLoop_none_iff (target band : ℚ) :
    ∀ (l : List ℚ) (i : Nat) (acc : Option Nat),
      DataStore.settleLoop target band l i acc = none ↔
        (acc = none ∧ ∀ x ∈ l, ¬ (|x - target| ≤ band)) := by
  intro l
  induction l with
  | nil => intro i acc; simp [DataStore.settleLoop]
  | cons t rest ih =>
      intro i acc
      by_cases hb : |t - target| ≤ band
      · by_cases hall : ((t :: rest).all fun x => decide (|x - target| ≤ band)) = true
        · simp only [DataStore.settleLoop, if_pos hb, if_pos hall]
          constructor
          · intro h; exact absurd h (by simp)
          · rintro ⟨-, hf⟩; exact absurd hb (hf t (List.mem_cons_self _ _))
        · simp only [DataStore.settleLoop, if_pos hb, if_neg hall]
          rw [ih (i + 1) (some i)]
          constructor
          · rintro ⟨h, -⟩; exact absurd h (by simp)
          · rintro ⟨-, hf⟩; exact absurd hb (hf t (List.mem_cons_self _ _))
      · simp only [DataStore.settleLoop, if_neg hb]
        rw [ih (i + 1) acc]
        constructor
        · rintro ⟨ha, hf⟩
          refine ⟨ha, ?_⟩
          intro x hx
          rcases List.mem_cons.mp hx with hx | hx
          · subst hx; exact hb
          · exact hf x hx
        · rintro ⟨ha, hf⟩
          exact ⟨ha, fun x hx => hf x (List.mem_cons_of_mem _ hx)⟩

/-! ## Claim theorems -/

/-- C1: the set-gains encoder `SerialManager.set_pid_params` is claimed to
emit `PID:<channel>:<kp>,<ki>,<kd>,<target_temp>,<control_period>,<max_duty>`
and round-trip through the device-side command parser.  Evaluated at
channel 0, kp=2.0, ki=0.15, kd=0.05, target=50.0, period=100, duty=100, the
encoder emits a comma after the channel id; that text differs from the
spec's colon format, and `MockSerial.write` on it fails at `int(parts[1])`
and leaves every channel unchanged (duty stays 80), whereas the colon format
is parsed and applied (duty becomes 100). -/
theorem C1_set_gains_encoder_emits_comma :
    SerialComm.set_pid_params 16 0 "2.0" "0.15" "0.05" "50.0" 100 100
        = some "PID:0,2.0,0.15,0.05,50.0,100,100"
    ∧ "PID:0,2.0,0.15,0.05,50.0,100,100"
        ≠ SerialComm.specSetGainsWire 0 "2.0" "0.15" "0.05" "50.0" 100 100
    ∧ SerialComm.mockWrite (SerialComm.initMChannels 16)
        ("PID:0,2.0,0.15,0.05,50.0,100,100").data = SerialComm.initMChannels 16
    ∧ ((SerialComm.mockWrite (SerialComm.initMChannels 16)
        ("PID:0,2.0,0.15,0.05,50.0,100,100").data).lookup 0).map
          SerialComm.SChan.max_duty = some 80
    ∧ ((SerialComm.mockWrite (SerialComm.initMChannels 16)
        (SerialComm.specSetGainsWire 0 "2.0" "0.15" "0.05" "50.0" 100 100).data).lookup 0).map
          SerialComm.SChan.max_duty = some 100 := by
  refine ⟨by decide, by decide, by rfl, by decide, by decide⟩

/-- C2 counterexample: a telemetry line that parses as JSON but lacks the
`channels` key is claimed to yield a decode error and leave the stored
snapshot in place.  In fact `get_status` stores and returns the malformed
object: with a previous good snapshot in `last_data`, reading the line
`{"timestamp": "t1", "status": "ok"}` replaces the snapshot and returns the
new object, which differs from the previous snapshot. -/
theorem C2_missing_channels_counterexample :
    SerialComm.get_status
        ⟨true, some (JVal.obj [("timestamp", .str "t0"), ("status", .str "ok"),
                               ("channels", .arr [])])⟩
        (some (some (JVal.obj [("timestamp", .str "t1"), ("status", .str "ok")]))) "now"
      = .ok (JVal.obj [("timestamp", .str "t1"), ("status", .str "ok")],
             ⟨true, some (JVal.obj [("timestamp", .str "t1"), ("status", .str "ok")])⟩)
    ∧ JVal.obj [("timestamp", .str "t1"), ("status", .str "ok")]
        ≠ JVal.obj [("timestamp", .str "t0"), ("status", .str "ok"),
                    ("channels", .arr [])] := by
  refine ⟨rfl, ?_⟩
  intro h
  exact absurd (congrArg (fun v => (JVal.lookup "channels" v).isSome) h) (by decide)

/-- C2 amended: only a line that fails JSON parsing (or an empty read, or a
falsy parsed value) is treated as a decode failure; on those `get_status`
returns the previous snapshot with the stored state unchanged.  A line that
parses to any truthy JSON value — whether or not it has a `channels` key —
replaces the stored snapshot and is returned. -/
theorem C2_last_good_fallback_amended (s : SerialComm.SMState) (prev : JVal) (now : String)
    (hc : s.connected = true) (hl : s.last_data = some prev) :
    SerialComm.get_status s (some none) now = .ok (prev, s)
    ∧ SerialComm.get_status s none now = .ok (prev, s)
    ∧ ∀ data : JVal, data.pyTruthy = true →
        SerialComm.get_status s (some (some data)) now
          = .ok (data, { s with last_data := some data }) := by
  refine ⟨?_, ?_, ?_⟩
  · simp [SerialComm.get_status, hc, hl]
  · simp [SerialComm.get_status, hc, hl]
  · intro data hdata
    simp [SerialComm.get_status, hc, hdata]

/-- C2 witness: a parse failure on a connected manager with a stored
snapshot returns that snapshot unchanged. -/
theorem C2_last_good_fallback_witness :
    SerialComm.get_status ⟨true, some (JVal.str "snap")⟩ (some none) "now"
      = .ok (JVal.str "snap", ⟨true, some (JVal.str "snap")⟩) :=
  (C2_last_good_fallback_amended ⟨true, some (JVal.str "snap")⟩ (JVal.str "snap")
    "now" rfl rfl).1

/-- C3 counterexample: on an advisor response missing `kd`, the fallback
explanation produced by `optimize_params` is the Chinese string
`参数优化失败，保持当前参数不变`, not the English string
"optimization failed, parameters unchanged" the claim states. -/
theorem C3_explanation_counterexample :
    (Optimizer.optimize_params [⟨0, 30, 50, 2, 3/20, 1/20, true⟩]
        (some (JVal.obj [("kp", .num 1), ("ki", .num 1),
                         ("explanation", .str "tuned")]))).explanation
      = "参数优化失败，保持当前参数不变"
    ∧ "参数优化失败，保持当前参数不变" ≠ "optimization failed, parameters unchanged" := by
  exact ⟨rfl, by decide⟩

/-- C3 amended: for every advisor response that fails validation (response
unparsable, or any of `kp`/`ki`/`kd`/`explanation` missing or of the wrong
type), `optimize_params` returns the channel's current gains (the window's
last row) unchanged with the fixed failure explanation
`参数优化失败，保持当前参数不变` ("optimization failed, parameters kept
unchanged"), and the channel model's state — which the optimizer never
receives — passes through untouched. -/
theorem C3_validation_failure_fallback_amended (sys : MockPID.Sys)
    (df : List CoreLogger.Row) (lastRow : CoreLogger.Row) (resp : Option JVal)
    (hdf : df.getLast? = some lastRow)
    (hresp : ∀ v, resp = some v → Optimizer.validateResponse v = none) :
    Optimizer.optimizeWithSystem sys df resp =
      ({ kp := lastRow.kp, ki := lastRow.ki, kd := lastRow.kd,
         explanation := "参数优化失败，保持当前参数不变" }, sys) := by
  cases resp with
  | none => simp [Optimizer.optimizeWithSystem, Optimizer.optimize_params, hdf]
  | some v =>
      simp [Optimizer.optimizeWithSystem, Optimizer.optimize_params, hdf, hresp v rfl]

/-- C3 witness: the amended statement at a one-row window with gains
(2, 1, 1) and a response missing `kd`. -/
theorem C3_validation_failure_fallback_witness :
    Optimizer.optimizeWithSystem (MockPID.initSys 1 0) [⟨0, 30, 50, 2, 1, 1, true⟩]
        (some (JVal.obj [("kp", .num 1), ("ki", .num 1), ("explanation", .str "tuned")]))
      = ({ kp := 2, ki := 1, kd := 1,
           explanation := "参数优化失败，保持当前参数不变" }, MockPID.initSys 1 0) :=
  C3_validation_failure_fallback_amended (MockPID.initSys 1 0)
    [⟨0, 30, 50, 2, 1, 1, true⟩] ⟨0, 30, 50, 2, 1, 1, true⟩
    (some (JVal.obj [("kp", .num 1), ("ki", .num 1), ("explanation", .str "tuned")]))
    rfl (fun v h => by cases h; rfl)

/-- C4 counterexample: reset followed by a status read is claimed to return
the documented defaults (kp=1.0, target 25.0, max duty 100).  Setting
channel 0's gains to kp=2, target=50, then calling `reset(0)` and reading
`get_current_state` reports kp=2 and target 50 — `MockPIDSystem.reset` does
not restore gains or target — and `MockSerial.reset` re-creates its channels
with `max_duty = 80`, not the documented 100. -/
theorem C4_reset_defaults_counterexample :
    (MockPID.reset
        (MockPID.update_params (MockPID.initSys 1 0) 0 2 (3/20) (1/20) 50 100 100)
        (some 0)).bind (fun s =>
      (MockPID.get_current_state s 0 (fun _ => 0)).map (fun p =>
        ((p.2.getD 0 ⟨0, 0, 0, 0, 0, 0, 0, 0, false⟩).kp,
         (p.2.getD 0 ⟨0, 0, 0, 0, 0, 0, 0, 0, false⟩).target_temp)))
      = some (2, 50)
    ∧ (2:ℚ) ≠ 1 ∧ (50:ℚ) ≠ 25
    ∧ ((SerialComm.mockReset 2 (SerialComm.initMChannels 2)).lookup 0).map
        SerialComm.SChan.max_duty = some 80
    ∧ (80:Int) ≠ 100 := by
  refine ⟨?_, by norm_num, by norm_num, by decide, by decide⟩
  norm_num [MockPID.reset, MockPID.update_params, MockPID.initSys, MockPID.Dist.set,
    MockPID.modifyIdx, MockPID.resetChan, MockPID.get_current_state, MockPID.calcNextTemp,
    MockPID.initChan, show List.range 1 = [0] from rfl, List.foldlM, Option.bind, List.getD]

/-- C4 amended: for every in-range channel id, `reset` sets the channel's
current temperature to 25.0, zeroes its integral accumulator, last error and
disturbance entry and clears `heating` — but leaves kp, ki, kd, target,
control period and max duty at their pre-reset values (they are not restored
to defaults), and touches no other channel. -/
theorem C4_reset_amended (s : MockPID.Sys) (c : Nat) (h : c < s.num_channels)
    (d : List ℚ) (hd : s.disturbance = MockPID.Dist.map d) :
    MockPID.reset s (some (c : Int)) =
      some { s with channels := MockPID.modifyIdx s.channels c MockPID.resetChan,
                    disturbance := MockPID.Dist.map (d.set c 0) }
    ∧ ∀ ch : MockPID.Chan, MockPID.resetChan ch =
        { ch with current_temp := 25, integral := 0, last_error := 0, heating := false } := by
  constructor
  · have h0 : (0:Int) ≤ (c:Int) ∧ (c:Int) < s.num_channels := by
      exact ⟨Int.ofNat_nonneg c, by exact_mod_cast h⟩
    simp only [MockPID.reset]
    rw [if_pos h0, hd]
    simp [MockPID.Dist.set]
  · intro ch; rfl

/-- C4 witness: the amended statement on a 1-channel system whose gains were
changed before the reset. -/
theorem C4_reset_witness :
    MockPID.reset
        (MockPID.update_params (MockPID.initSys 1 0) 0 2 (3/20) (1/20) 50 100 100)
        (some 0)
      = some { MockPID.update_params (MockPID.initSys 1 0) 0 2 (3/20) (1/20) 50 100 100 with
               channels := MockPID.modifyIdx
                 (MockPID.update_params (MockPID.initSys 1 0) 0 2 (3/20) (1/20) 50 100 100).channels
                 0 MockPID.resetChan,
               disturbance := MockPID.Dist.map ([0].set 0 0) } :=
  (C4_reset_amended
    (MockPID.update_params (MockPID.initSys 1 0) 0 2 (3/20) (1/20) 50 100 100)
    0 (by decide) [0] rfl).1

/-- C5: with heating enabled, elapsed time past the minimum sample interval,
but `now - last_control_time` still below the control period, the step is
claimed to be a pure hold.  At current=25, target=50, integral=0,
control_period=1000 ms, last times 0 and now=0.5 s, the code does return the
temperature unchanged (25) and leaves `last_error` and `last_time` alone,
but the integral accumulator has already been incremented by
`error*dt = 25*0.5 = 12.5` before the control-period gate. -/
theorem C5_hold_step_updates_integral :
    MockPID.calcNextTemp
      { num_channels := 1,
        channels := [{ current_temp := 25, target_temp := 50, kp := 2, ki := 3/20,
                       kd := 1/20, control_period := 1000, max_duty := 100,
                       heating := true, last_error := 0, integral := 0,
                       last_time := 0, last_control_time := 0 }],
        disturbance := .map [0] } 0 (1/2) 0
      = some ({ num_channels := 1,
                channels := [{ current_temp := 25, target_temp := 50, kp := 2, ki := 3/20,
                               kd := 1/20, control_period := 1000, max_duty := 100,
                               heating := true, last_error := 0, integral := 25/2,
                               last_time := 0, last_control_time := 0 }],
                disturbance := .map [0] }, 25)
    ∧ (25/2 : ℚ) ≠ 0 := by
  constructor
  · norm_num [MockPID.calcNextTemp, MockPID.modifyIdx, MockPID.Dist.get]
  · norm_num

/-- C6 counterexample: settling time is claimed to be defined only when the
tolerance band is sustained through the end of the window.  On the window
(0 s, 30°), (1 s, 50°), (2 s, 60°) with target 50 the last sample is outside
the ±2% band, yet `get_channel_metrics` reports settling time 1 s (the first
in-band sample); likewise `analyze_curve` on [50, 60] with target 50 reports
index 0 although 60 is outside its ±5% band. -/
theorem C6_settling_counterexample :
    CoreLogger.metricsSettling
        [⟨0, 30, 50, 1, 1, 1, true⟩, ⟨1, 50, 50, 1, 1, 1, true⟩, ⟨2, 60, 50, 1, 1, 1, true⟩]
      = some (1 - 0)
    ∧ ¬ ((50:ℚ) - 2/100 * 50 ≤ 60 ∧ (60:ℚ) ≤ 50 + 2/100 * 50)
    ∧ DataStore.analyzeSettling 50 [50, 60] = some 0
    ∧ ¬ (|(60:ℚ) - 50| ≤ 50 * (5/100)) := by
  refine ⟨?_, by norm_num, ?_, by norm_num⟩
  · rw [metricsSettling_eq
      [⟨0, 30, 50, 1, 1, 1, true⟩, ⟨1, 50, 50, 1, 1, 1, true⟩, ⟨2, 60, 50, 1, 1, 1, true⟩]
      ⟨0, 30, 50, 1, 1, 1, true⟩ ⟨2, 60, 50, 1, 1, 1, true⟩ rfl rfl]
    have hfind : ([⟨0, 30, 50, 1, 1, 1, true⟩, ⟨1, 50, 50, 1, 1, 1, true⟩,
        ⟨2, 60, 50, 1, 1, 1, true⟩] : List CoreLogger.Row).find?
          (CoreLogger.inBand (50:ℚ) ((2/100) * 50)) = some ⟨1, 50, 50, 1, 1, 1, true⟩ := by
      apply List.find?_eq_some.mpr
      refine ⟨?_, [⟨0, 30, 50, 1, 1, 1, true⟩], [⟨2, 60, 50, 1, 1, 1, true⟩], rfl, ?_⟩
      · simp only [CoreLogger.inBand, decide_eq_true_eq]
        norm_num
      · intro x hx
        simp at hx
        subst hx
        simp only [CoreLogger.inBand, Bool.not_eq_true', decide_eq_false_iff_not]
        norm_num
    rw [hfind]
    rfl
  · have h50 : decide (|(50:ℚ) - 50| ≤ 50 * (5/100)) = true := by
      simp only [decide_eq_true_eq]; norm_num
    have h60 : decide (|(60:ℚ) - 50| ≤ 50 * (5/100)) = false := by
      simp only [decide_eq_false_iff_not]; norm_num
    simp only [DataStore.analyzeSettling, DataStore.settleLoop, List.all_cons, List.all_nil,
      h50, h60]
    norm_num

/-- C6 amended: in `get_channel_metrics`, settling time is defined iff some
sample of the window lies within the ±2% band of the final target, and then
equals the elapsed time from the window's start to the *first* such sample,
whether or not the band is sustained afterwards; in `analyze_curve` (±5%
band, index units) the result is `None` iff no sample ever lies in the band. -/
theorem C6_settling_amended :
    (∀ (rows : List CoreLogger.Row) (r0 lastRow : CoreLogger.Row),
        rows.head? = some r0 → rows.getLast? = some lastRow →
        (CoreLogger.metricsSettling rows = none ↔
          ∀ r ∈ rows, ¬ (lastRow.target_temp - 2/100 * lastRow.target_temp ≤ r.temperature ∧
                          r.temperature ≤ lastRow.target_temp + 2/100 * lastRow.target_temp)))
    ∧ (∀ (rows : List CoreLogger.Row) (r0 lastRow r : CoreLogger.Row)
          (pre suf : List CoreLogger.Row),
        rows.head? = some r0 → rows.getLast? = some lastRow →
        rows = pre ++ r :: suf →
        (lastRow.target_temp - 2/100 * lastRow.target_temp ≤ r.temperature ∧
          r.temperature ≤ lastRow.target_temp + 2/100 * lastRow.target_temp) →
        (∀ x ∈ pre, ¬ (lastRow.target_temp - 2/100 * lastRow.target_temp ≤ x.temperature ∧
                        x.temperature ≤ lastRow.target_temp + 2/100 * lastRow.target_temp)) →
        CoreLogger.metricsSettling rows = some (r.timestamp - r0.timestamp))
    ∧ (∀ (target : ℚ) (temps : List ℚ),
        DataStore.analyzeSettling target temps = none ↔
          ∀ x ∈ temps, ¬ (|x - target| ≤ target * (5/100))) := by
  refine ⟨?_, ?_, ?_⟩
  · intro rows r0 lastRow hhead hlast
    rw [metricsSettling_eq rows r0 lastRow hhead hlast, Option.map_eq_none',
      List.find?_eq_none]
    simp only [inBand_iff]
  · intro rows r0 lastRow r pre suf hhead hlast hdecomp hin hpre
    rw [metricsSettling_eq rows r0 lastRow hhead hlast]
    have hfind : rows.find?
        (CoreLogger.inBand lastRow.target_temp ((2/100) * lastRow.target_temp)) = some r := by
      rw [hdecomp]
      apply List.find?_eq_some.mpr
      refine ⟨(inBand_iff _ _ _).mpr hin, pre, suf, rfl, ?_⟩
      intro x hx
      simp only [CoreLogger.inBand, Bool.not_eq_true', decide_eq_false_iff_not]
      exact hpre x hx
    rw [hfind]
    rfl
  · intro target temps
    cases temps with
    | nil => simp [DataStore.analyzeSettling]
    | cons t ts =>
        simp only [DataStore.analyzeSettling]
        rw [settleLoop_none_iff]
        simp

/-- C6 witness: the amended statement at concrete windows — no in-band
sample gives `none`; a first in-band sample at 1 s gives 1 s even though a
later sample (49°) is also in band; `analyze_curve` with no in-band sample
gives `None`. -/
theorem C6_settling_witness :
    CoreLogger.metricsSettling [⟨0, 30, 50, 1, 1, 1, true⟩] = none
    ∧ CoreLogger.metricsSettling
        [⟨0, 30, 50, 1, 1, 1, true⟩, ⟨1, 50, 50, 1, 1, 1, true⟩, ⟨2, 49, 50, 1, 1, 1, true⟩]
      = some (1 - 0)
    ∧ DataStore.analyzeSettling 50 [60] = none := by
  refine ⟨?_, ?_, ?_⟩
  · exact (C6_settling_amended.1 [⟨0, 30, 50, 1, 1, 1, true⟩] ⟨0, 30, 50, 1, 1, 1, true⟩
      ⟨0, 30, 50, 1, 1, 1, true⟩ rfl rfl).mpr
      (by intro r hr; simp at hr; subst hr; norm_num)
  · exact C6_settling_amended.2.1 _ ⟨0, 30, 50, 1, 1, 1, true⟩ ⟨2, 49, 50, 1, 1, 1, true⟩
      ⟨1, 50, 50, 1, 1, 1, true⟩ [⟨0, 30, 50, 1, 1, 1, true⟩] [⟨2, 49, 50, 1, 1, 1, true⟩]
      rfl rfl rfl (by norm_num) (by intro x hx; simp at hx; subst hx; norm_num)
  · exact (C6_settling_amended.2.2 50 [60]).mpr (by intro x hx; simp at hx; subst hx; norm_num)

/-- C7 counterexample: overshoot is claimed to be 0 (never negative) when
the maximum temperature stays at or below target.  On a window whose single
sample is 20° with target 25°, `get_channel_metrics` reports overshoot −20,
a negative value. -/
theorem C7_overshoot_counterexample :
    CoreLogger.metricsOvershoot [⟨0, 20, 25, 1, 1, 1, false⟩] = some (-20)
    ∧ ((-20:ℚ) < 0) := by
  constructor
  · norm_num [CoreLogger.metricsOvershoot, CoreLogger.tempMax]
  · norm_num

/-- C7 amended: for target ≠ 0, `get_channel_metrics` reports the *signed*
value `(max_temp − target)/target × 100` with no floor at zero — strictly
negative whenever `max_temp < target` and `target > 0` — while
`analyze_curve` floors at zero exactly as the claim states. -/
theorem C7_overshoot_amended :
    (∀ (rows : List CoreLogger.Row) (lastRow : CoreLogger.Row),
        rows.getLast? = some lastRow → lastRow.target_temp ≠ 0 →
        CoreLogger.metricsOvershoot rows
          = some ((CoreLogger.tempMax rows - lastRow.target_temp) / lastRow.target_temp * 100))
    ∧ (∀ (rows : List CoreLogger.Row) (lastRow : CoreLogger.Row),
        rows.getLast? = some lastRow → 0 < lastRow.target_temp →
        CoreLogger.tempMax rows < lastRow.target_temp →
        ∃ v, CoreLogger.metricsOvershoot rows = some v ∧ v < 0)
    ∧ (∀ (target : ℚ) (temps : List ℚ), temps ≠ [] → target ≠ 0 →
        DataStore.analyzeOvershoot target temps
          = some (if DataStore.maxTemps temps > target
                  then (DataStore.maxTemps temps - target) / target * 100 else 0)) := by
  have A : ∀ (rows : List CoreLogger.Row) (lastRow : CoreLogger.Row),
      rows.getLast? = some lastRow → lastRow.target_temp ≠ 0 →
      CoreLogger.metricsOvershoot rows
        = some ((CoreLogger.tempMax rows - lastRow.target_temp) / lastRow.target_temp * 100) := by
    intro rows lastRow h ht
    simp [CoreLogger.metricsOvershoot, h, ht]
  refine ⟨A, ?_, ?_⟩
  · intro rows lastRow h ht hmax
    refine ⟨(CoreLogger.tempMax rows - lastRow.target_temp) / lastRow.target_temp * 100,
      A rows lastRow h (by positivity), ?_⟩
    have hnum : CoreLogger.tempMax rows - lastRow.target_temp < 0 := by linarith
    have hdiv : (CoreLogger.tempMax rows - lastRow.target_temp) / lastRow.target_temp < 0 :=
      div_neg_of_neg_of_pos hnum ht
    linarith
  · intro target temps hne ht
    cases temps with
    | nil => exact absurd rfl hne
    | cons t ts =>
        by_cases hgt : DataStore.maxTemps (t :: ts) > target
        · simp [DataStore.analyzeOvershoot, hgt, ht]
        · simp [DataStore.analyzeOvershoot, hgt]

/-- C7 witness: the amended statement at a below-target window (negative
overshoot) and at a concrete `analyze_curve` series. -/
theorem C7_overshoot_witness :
    (∃ v, CoreLogger.metricsOvershoot [⟨0, 20, 25, 1, 1, 1, false⟩] = some v ∧ v < 0)
    ∧ DataStore.analyzeOvershoot 50 [40, 60]
        = some (if DataStore.maxTemps [40, 60] > 50
                then (DataStore.maxTemps [40, 60] - 50) / 50 * 100 else 0) := by
  constructor
  · exact C7_overshoot_amended.2.1 [⟨0, 20, 25, 1, 1, 1, false⟩] ⟨0, 20, 25, 1, 1, 1, false⟩
      rfl (by norm_num) (by norm_num [CoreLogger.tempMax])
  · exact C7_overshoot_amended.2.2 50 [40, 60] (by simp) (by norm_num)

/-- C8 counterexample: an out-of-range channel id is claimed always to
signal an `InvalidChannel` error.  `update_params` on channel 16 of a
16-channel system returns normally with the state bit-for-bit unchanged, and
`set_heating` likewise leaves every channel unchanged: the access is
silently ignored, no error is raised. -/
theorem C8_out_of_range_counterexample :
    MockPID.update_params (MockPID.initSys 16 0) 16 2 2 2 50 100 100
        = MockPID.initSys 16 0
    ∧ (MockPID.set_heating (MockPID.initSys 16 0) 16 true).channels
        = (MockPID.initSys 16 0).channels := by
  exact ⟨rfl, rfl⟩

/-- C8 amended: for every out-of-range channel id, `update_params` is a
complete no-op (the state is returned unchanged and no error is raised) and
`set_heating` leaves the channel map unchanged while unconditionally
replacing the disturbance store with the scalar `0.0` (which it does on
every call, in-range or not). -/
theorem C8_out_of_range_amended (s : MockPID.Sys) (c : Int)
    (h : ¬ (0 ≤ c ∧ c < s.num_channels))
    (kp ki kd target : ℚ) (cp md : Int) (b : Bool) :
    MockPID.update_params s c kp ki kd target cp md = s
    ∧ MockPID.set_heating s c b = { s with disturbance := .scalar 0 } := by
  constructor
  · unfold MockPID.update_params
    rw [if_neg h]
  · unfold MockPID.set_heating
    rw [if_neg h]

/-- C8 witness: the amended statement at channel 5 of a 2-channel system. -/
theorem C8_out_of_range_witness :
    MockPID.update_params (MockPID.initSys 2 0) 5 1 1 1 50 100 100
        = MockPID.initSys 2 0
    ∧ MockPID.set_heating (MockPID.initSys 2 0) 5 false
        = { MockPID.initSys 2 0 with disturbance := .scalar 0 } :=
  C8_out_of_range_amended (MockPID.initSys 2 0) 5 (by decide) 1 1 1 50 100 100 false

/-- C9: on an empty data window `optimize_params` returns the fixed built-in
defaults kp=1.0, ki=0.1, kd=0.05 with the no-data explanation, identically
for every possible advisor reply — the empty-window return precedes the
advisor call, so the advisor is never consulted, and the fallback is the
system defaults rather than any channel's current gains. -/
theorem C9_no_data_defaults (resp : Option JVal) :
    Optimizer.optimize_params [] resp =
      { kp := 1, ki := 1/10, kd := 1/20,
        explanation := "没有足够的数据进行优化" } := rfl

/-- C9 witness: the no-data default result at a concrete advisor reply. -/
theorem C9_no_data_defaults_witness :
    Optimizer.optimize_params [] none =
      { kp := 1, ki := 1/10, kd := 1/20,
        explanation := "没有足够的数据进行优化" } :=
  C9_no_data_defaults none

/-- C10: `clear_channel_data` with an in-range id returns `True`, empties
exactly that channel's series and leaves every other channel's series
unchanged; with an out-of-range id it returns `False` and changes nothing,
raising no exception. -/
theorem C10_clear_channel_data (s : CoreLogger.LoggerState) (c : Int)
    (hlen : s.data.length = s.num_channels) :
    (0 ≤ c ∧ c < s.num_channels →
      (CoreLogger.clear_channel_data s c).1 = true
      ∧ (CoreLogger.clear_channel_data s c).2.data.getD c.toNat [] = []
      ∧ ∀ j : Nat, j ≠ c.toNat →
          (CoreLogger.clear_channel_data s c).2.data.getD j []
            = s.data.getD j [])
    ∧ (¬ (0 ≤ c ∧ c < s.num_channels) →
        CoreLogger.clear_channel_data s c = (false, s)) := by
  constructor
  · intro h
    have hc : c.toNat < s.data.length := by omega
    unfold CoreLogger.clear_channel_data
    rw [if_pos h]
    refine ⟨rfl, ?_, ?_⟩
    · simp [List.getD_eq_getElem?_getD, List.getElem?_set, hc]
    · intro j hj
      simp [List.getD_eq_getElem?_getD, List.getElem?_set, Ne.symm hj]
  · intro h
    unfold CoreLogger.clear_channel_data
    rw [if_neg h]

/-- C10 witness: clearing channel 0 of a 2-channel logger holding one record
per channel wipes channel 0, keeps channel 1 and returns `True`. -/
theorem C10_clear_channel_data_witness :
    (CoreLogger.clear_channel_data
        ⟨2, [[⟨0, 30, 50, 1, 1, 1, false⟩], [⟨0, 40, 50, 1, 1, 1, true⟩]]⟩ 0).1 = true
    ∧ (CoreLogger.clear_channel_data
        ⟨2, [[⟨0, 30, 50, 1, 1, 1, false⟩], [⟨0, 40, 50, 1, 1, 1, true⟩]]⟩ 0).2.data.getD 0 []
        = []
    ∧ (CoreLogger.clear_channel_data
        ⟨2, [[⟨0, 30, 50, 1, 1, 1, false⟩], [⟨0, 40, 50, 1, 1, 1, true⟩]]⟩ 0).2.data.getD 1 []
        = [⟨0, 40, 50, 1, 1, 1, true⟩] := by
  have h := C10_clear_channel_data
    ⟨2, [[⟨0, 30, 50, 1, 1, 1, false⟩], [⟨0, 40, 50, 1, 1, 1, true⟩]]⟩ 0 rfl
  have h1 := h.1 ⟨by decide, by decide⟩
  exact ⟨h1.1, h1.2.1, (h1.2.2 1 (by decide)).trans rfl⟩
